import Mathlib

/-!
Verification of the icon-geometry core of the gf-label-generator repository.

The development shallowly embeds the shape primitives and icon generators of
`shapes.py` and the icon-handling fragment of `generator.py`:

* Python floats are modelled by `ℝ` where trigonometry is involved
  (`polygon_points`, `star`, slanted knurl lines) and by `ℚ` for the plain
  arithmetic that drives control flow; `f"{x:.2f}"` formatting is modelled by
  rounding to two decimal places (`round2`).
* SVG output is modelled structurally: an `Svg` value records the fixed
  `width`/`height` attributes, the `viewBox` string and the list of drawable
  elements (`Elem`), in emission order.  XML comments inside the markup are
  not drawable elements and are not modelled.
* The registries of `shapes.IconRegistry` are association lists built by
  `addIcon`, the model of the `icon_generator` decorator; a raised
  `ValueError` is modelled by `Except.error`.
-/

namespace GfLabel

/-- Degrees to radians, the model of `math.radians`. -/
noncomputable def radians (x : ℝ) : ℝ := x * Real.pi / 180

/-- Euclidean distance between two points of the plane. -/
noncomputable def euclidDist (p q : ℝ × ℝ) : ℝ :=
  Real.sqrt ((p.1 - q.1) ^ 2 + (p.2 - q.2) ^ 2)

/-- Model of Python float formatting with `:.2f`: rounding to two decimals. -/
noncomputable def round2 (x : ℝ) : ℝ := round (100 * x) / 100

/-- Rounding both coordinates of a point to two decimals. -/
noncomputable def round2p (p : ℝ × ℝ) : ℝ × ℝ := (round2 p.1, round2 p.2)

/-- The exact (unformatted) vertices computed by `shapes.polygon_points`:
`n` points on the circle of radius `R = flat_to_flat / (2 cos (pi/n))`
around `(cx, cy)`, at angles `rotation_deg + i * (360/n)` degrees. -/
noncomputable def polygon_points_exact
    (n : ℕ) (flat_to_flat cx cy rotation_deg : ℝ) : List (ℝ × ℝ) :=
  let R := flat_to_flat / (2 * Real.cos (Real.pi / n))
  (List.range n).map fun (i : ℕ) =>
    let a := radians (rotation_deg + (i : ℝ) * (360 / (n : ℝ)))
    (cx + R * Real.cos a, cy + R * Real.sin a)

/-- The coordinate pairs emitted by `shapes.polygon_points` into the
`points="..."` attribute: the exact vertices, each coordinate formatted to
two decimal places. -/
noncomputable def polygon_points
    (n : ℕ) (flat_to_flat cx cy rotation_deg : ℝ) : List (ℝ × ℝ) :=
  (polygon_points_exact n flat_to_flat cx cy rotation_deg).map round2p

/-- An SVG path of `M`/`L` points, with `closed = true` when terminated by `Z`. -/
structure SvgPath where
  pts : List (ℝ × ℝ)
  closed : Bool

/-- The exact (unformatted) vertices computed by `shapes.star`: `2 * lobes`
points alternating between `outer_radius` (even index) and `inner_radius`
(odd index) around `(50, 50)`, starting at `-90` degrees. -/
noncomputable def star_vertices_exact
    (lobes : ℕ) (outer_radius inner_radius : ℝ) : List (ℝ × ℝ) :=
  (List.range (lobes * 2)).map fun (i : ℕ) =>
    let r := if i % 2 = 0 then outer_radius else inner_radius
    let a := radians ((i : ℝ) * (360 / ((lobes : ℝ) * 2)) - 90)
    (50 + r * Real.cos a, 50 + r * Real.sin a)

/-- The path emitted by `shapes.star`: the alternating vertices, formatted to
two decimal places, as a `Z`-closed path. -/
noncomputable def star (lobes : ℕ) (outer_radius inner_radius : ℝ) : SvgPath :=
  ⟨(star_vertices_exact lobes outer_radius inner_radius).map round2p, true⟩

/-- Helper: indexing into a mapped range. -/
theorem getD_range_map {α : Type} (m i : ℕ) (g : ℕ → α) (d : α) (h : i < m) :
    ((List.range m).map g).getD i d = g i := by
  rw [List.getD_eq_getElem?_getD, List.getElem?_map, List.getElem?_range h]
  rfl

/-- Helper: `pi / n` is in the open interval `(-(pi/2), pi/2)` for `3 ≤ n`. -/
theorem pi_div_lt (n : ℕ) (hn : 3 ≤ n) :
    0 < Real.cos (Real.pi / n) := by
  have hn0 : (0 : ℝ) < n := by positivity
  have h2 : (2 : ℝ) < n := by
    have : (2 : ℕ) < n := by omega
    exact_mod_cast this
  apply Real.cos_pos_of_mem_Ioo
  constructor
  · have h3 : 0 < Real.pi / n := div_pos Real.pi_pos hn0
    have h4 : 0 < Real.pi / 2 := by positivity
    linarith
  · exact div_lt_div_of_pos_left Real.pi_pos (by norm_num) h2

/-- Helper: distance of `(cx + R cos a, cy + R sin a)` from `(cx, cy)`. -/
theorem dist_circle_point (cx cy R a : ℝ) (hR : 0 ≤ R) :
    euclidDist (cx + R * Real.cos a, cy + R * Real.sin a) (cx, cy) = R := by
  have h1 : (cx + R * Real.cos a - cx) ^ 2 + (cy + R * Real.sin a - cy) ^ 2
      = R ^ 2 := by
    have := Real.sin_sq_add_cos_sq a
    nlinarith [this]
  rw [euclidDist]
  simp only
  rw [h1, Real.sqrt_sq hR]

/-- C1: for every supported side count `n ≥ 3` and nonnegative flat-to-flat
distance `f`, `polygon_points n f cx cy rot` returns exactly `n` coordinate
pairs, each coordinate formatted to two decimal places from the exact vertex;
the exact vertex `i` lies at angle `rot + i * (360/n)` degrees and at
Euclidean distance `R = f / (2 cos (pi/n))` from the center `(cx, cy)`. -/
theorem polygon_points_spec (n : ℕ) (f cx cy rot : ℝ) (hn : 3 ≤ n) (hf : 0 ≤ f) :
    (polygon_points n f cx cy rot).length = n ∧
    polygon_points n f cx cy rot = (polygon_points_exact n f cx cy rot).map round2p ∧
    ∀ i : ℕ, i < n →
      (polygon_points_exact n f cx cy rot).getD i (0, 0) =
        (cx + f / (2 * Real.cos (Real.pi / n)) *
            Real.cos (radians (rot + (i : ℝ) * (360 / (n : ℝ)))),
         cy + f / (2 * Real.cos (Real.pi / n)) *
            Real.sin (radians (rot + (i : ℝ) * (360 / (n : ℝ))))) ∧
      euclidDist ((polygon_points_exact n f cx cy rot).getD i (0, 0)) (cx, cy)
        = f / (2 * Real.cos (Real.pi / n)) := by
  refine ⟨by simp [polygon_points, polygon_points_exact], rfl, ?_⟩
  intro i hi
  have hget : (polygon_points_exact n f cx cy rot).getD i (0, 0) =
      (cx + f / (2 * Real.cos (Real.pi / n)) *
          Real.cos (radians (rot + (i : ℝ) * (360 / (n : ℝ)))),
       cy + f / (2 * Real.cos (Real.pi / n)) *
          Real.sin (radians (rot + (i : ℝ) * (360 / (n : ℝ))))) := by
    unfold polygon_points_exact
    exact getD_range_map n i _ _ hi
  refine ⟨hget, ?_⟩
  rw [hget]
  have hcos := pi_div_lt n hn
  have hR : 0 ≤ f / (2 * Real.cos (Real.pi / n)) := by positivity
  exact dist_circle_point _ _ _ _ hR

/-- Witness for C1 at the concrete scenario `polygon_points(6, 50)`:
six points, each at radius `50 / (2 cos (pi/6))` from `(50, 50)`. -/
theorem polygon_points_spec_witness :
    (3 ≤ 6 ∧ (0 : ℝ) ≤ 50) ∧
    ((polygon_points 6 50 50 50 0).length = 6 ∧
     polygon_points 6 50 50 50 0 = (polygon_points_exact 6 50 50 50 0).map round2p ∧
     ∀ i : ℕ, i < 6 →
       (polygon_points_exact 6 50 50 50 0).getD i (0, 0) =
         (50 + 50 / (2 * Real.cos (Real.pi / 6)) *
             Real.cos (radians (0 + (i : ℝ) * (360 / (6 : ℕ) : ℝ))),
          50 + 50 / (2 * Real.cos (Real.pi / 6)) *
             Real.sin (radians (0 + (i : ℝ) * (360 / (6 : ℕ) : ℝ)))) ∧
       euclidDist ((polygon_points_exact 6 50 50 50 0).getD i (0, 0)) (50, 50)
         = 50 / (2 * Real.cos (Real.pi / 6))) :=
  ⟨⟨by norm_num, by norm_num⟩,
    polygon_points_spec 6 50 50 50 0 (by norm_num) (by norm_num)⟩

/-- C2: for every `lobes ≥ 2` and nonnegative radii, `star` returns a
`Z`-closed path of exactly `2 * lobes` formatted vertices; the exact vertex
`i` is at distance `outer` (even `i`) or `inner` (odd `i`) from `(50, 50)`,
and vertex `0` is at angle `-90` degrees, i.e. at `(50, 50 - outer)`. -/
theorem star_spec (lobes : ℕ) (outer inner : ℝ)
    (hl : 2 ≤ lobes) (ho : 0 ≤ outer) (hi : 0 ≤ inner) :
    (star lobes outer inner).closed = true ∧
    (star lobes outer inner).pts.length = 2 * lobes ∧
    (star_vertices_exact lobes outer inner).getD 0 (0, 0) = (50, 50 - outer) ∧
    ∀ i : ℕ, i < 2 * lobes →
      euclidDist ((star_vertices_exact lobes outer inner).getD i (0, 0)) (50, 50)
        = if i % 2 = 0 then outer else inner := by
  refine ⟨rfl, by simp [star, star_vertices_exact, Nat.mul_comm], ?_, ?_⟩
  · have h0 : 0 < lobes * 2 := by omega
    have hget : (star_vertices_exact lobes outer inner).getD 0 (0, 0) =
        (50 + outer * Real.cos (radians ((0 : ℝ) * (360 / ((lobes : ℝ) * 2)) - 90)),
         50 + outer * Real.sin (radians ((0 : ℝ) * (360 / ((lobes : ℝ) * 2)) - 90))) := by
      unfold star_vertices_exact
      have := getD_range_map (lobes * 2) 0
        (fun i =>
          ((50 + (if i % 2 = 0 then outer else inner) *
              Real.cos (radians ((i : ℝ) * (360 / ((lobes : ℝ) * 2)) - 90)),
            50 + (if i % 2 = 0 then outer else inner) *
              Real.sin (radians ((i : ℝ) * (360 / ((lobes : ℝ) * 2)) - 90))) : ℝ × ℝ))
        (0, 0) h0
      simpa using this
    rw [hget]
    have ha : radians ((0 : ℝ) * (360 / ((lobes : ℝ) * 2)) - 90) = -(Real.pi / 2) := by
      unfold radians; ring
    rw [ha, Real.cos_neg, Real.sin_neg, Real.cos_pi_div_two, Real.sin_pi_div_two]
    norm_num
    ring
  · intro i hi2
    have hi2' : i < lobes * 2 := by omega
    have hget : (star_vertices_exact lobes outer inner).getD i (0, 0) =
        (50 + (if i % 2 = 0 then outer else inner) *
            Real.cos (radians ((i : ℝ) * (360 / ((lobes : ℝ) * 2)) - 90)),
         50 + (if i % 2 = 0 then outer else inner) *
            Real.sin (radians ((i : ℝ) * (360 / ((lobes : ℝ) * 2)) - 90))) := by
      unfold star_vertices_exact
      exact getD_range_map (lobes * 2) i _ _ hi2'
    rw [hget]
    by_cases hpar : i % 2 = 0
    · simp only [hpar, if_pos rfl]
      simpa using dist_circle_point 50 50 outer _ ho
    · simp only [if_neg hpar]
      simpa using dist_circle_point 50 50 inner _ hi

/-- Witness for C2 at the concrete Torx-head scenario `star(6, 24, 16)`. -/
theorem star_spec_witness :
    (2 ≤ 6 ∧ (0 : ℝ) ≤ 24 ∧ (0 : ℝ) ≤ 16) ∧
    ((star 6 24 16).closed = true ∧
     (star 6 24 16).pts.length = 2 * 6 ∧
     (star_vertices_exact 6 24 16).getD 0 (0, 0) = (50, 50 - 24) ∧
     ∀ i : ℕ, i < 2 * 6 →
       euclidDist ((star_vertices_exact 6 24 16).getD i (0, 0)) (50, 50)
         = if i % 2 = 0 then 24 else 16) :=
  ⟨⟨by norm_num, by norm_num, by norm_num⟩,
    star_spec 6 24 16 (by norm_num) (by norm_num) (by norm_num)⟩

/-- A drawable SVG element, as emitted by the shape functions of `shapes.py`,
with its numeric attributes in emission order.  `rrect` is a rect with corner
radii, `rectT` a rect with a `rotate(rot rcx rcy)` transform, `qpath` the
two-segment quadratic path of the split washer. -/
inductive Elem where
  | rect (x y w h : ℝ) (fill : String)
  | rrect (x y w h rx ry : ℝ) (fill : String)
  | rectT (x y w h rot rcx rcy : ℝ) (fill : String)
  | circle (cx cy r : ℝ) (fill : String)
  | ellipse (cx cy rx ry : ℝ) (fill : String)
  | line (x1 y1 x2 y2 : ℝ) (stroke : String) (sw : ℝ)
  | polygon (pts : List (ℝ × ℝ)) (fill : String)
  | path (p : SvgPath) (fill : String)
  | qpath (m c1 e1 c2 e2 : ℝ × ℝ) (stroke : String) (sw : ℝ) (fill : String)

/-- A complete icon: the fixed-size svg tag with its drawable children.
Every generator of `shapes.py` emits `width="100" height="100"` and a
`viewBox` string. -/
structure Svg where
  width : ℕ
  height : ℕ
  viewBox : String
  elems : List Elem

/-- Model of `shapes.annulus`. -/
noncomputable def annulus (outer_radius inner_radius : ℝ) (color : String) : List Elem :=
  [.circle 50 50 outer_radius color,
   .circle 50 50 inner_radius "#FFFFFF"]

/-- Model of `shapes.cap_side`. -/
noncomputable def cap_side (head_width head_height : ℝ) : List Elem :=
  [.rrect ((100 - head_width) / 2) (100 - head_height - 80) head_width head_height
      (head_height / 4) (head_height / 4) "#000000"]

/-- Model of `shapes.button_side`. -/
noncomputable def button_side (head_diameter head_height : ℝ) : List Elem :=
  [.ellipse 50 (100 - head_height - 80 + head_height / 2) (head_diameter / 2)
      (head_height / 2) "#000000",
   .rect ((100 - head_diameter) / 2) (100 - head_height - 80 + head_height / 2)
      head_diameter (head_height / 2) "#000000"]

/-- Model of `shapes.countersunk_side`. -/
noncomputable def countersunk_side (head_diameter head_height : ℝ) : List Elem :=
  [.path ⟨[((100 - head_diameter) / 2, 100 - head_height - 80),
           ((100 + head_diameter) / 2, 100 - head_height - 80),
           (60, 100 - 80), (40, 100 - 80)], true⟩ "#000000"]

/-- Model of `shapes.bolt_shaft`: the shaft rectangle, six white threading
lines, and a pointed-tip triangle or chamfer trapezoid. -/
noncomputable def bolt_shaft (shaft_width shaft_length : ℝ) (pointed : Bool) : List Elem :=
  let origin_x := (100 - shaft_width) / 2
  let origin_y := 100 - shaft_length
  let chamfer_height := shaft_width / 4
  let len := shaft_length - (if pointed then shaft_width else chamfer_height)
  let threads := (List.range 6).map fun (i : ℕ) =>
    let y := origin_y + ((i : ℝ) + 1) * (len / 7)
    Elem.line origin_x y ((100 + shaft_width) / 2) (y - shaft_width / 4) "#FFFFFF" 2
  let tip := if pointed then
      [Elem.path ⟨[(origin_x, origin_y + len), (50, 100),
                   (origin_x + shaft_width, origin_y + len)], true⟩ "#000000"]
    else
      [Elem.path ⟨[(origin_x, origin_y + len),
                   (origin_x + shaft_width, origin_y + len),
                   (origin_x + shaft_width - chamfer_height / 2, origin_y + len + chamfer_height),
                   (origin_x + chamfer_height / 2, origin_y + len + chamfer_height)], true⟩ "#000000"]
  Elem.rect origin_x origin_y shaft_width len "#000000" :: threads ++ tip

/-- Model of `shapes.nut_hex_top`. -/
noncomputable def nut_hex_top (flat_to_flat : ℝ) (color : String) : List Elem :=
  let hole_radius := flat_to_flat / 4
  [.polygon (polygon_points 6 flat_to_flat 50 50 0) color,
   .circle 50 50 hole_radius "#FFFFFF"]

/-- Model of `shapes.nut_hex_side`. -/
noncomputable def nut_hex_side (thickness flat_to_flat : ℝ) (color : String) : List Elem :=
  [.rect ((100 - thickness) / 2) ((100 - flat_to_flat) / 2) thickness flat_to_flat color,
   .line ((100 - thickness) / 2 - flat_to_flat / 4) ((100 - flat_to_flat) / 2 + flat_to_flat * 0.25)
         ((100 + thickness) / 2 + flat_to_flat / 4) ((100 - flat_to_flat) / 2 + flat_to_flat * 0.25)
         "#FFFFFF" 2,
   .line ((100 - thickness) / 2 - flat_to_flat / 4) ((100 - flat_to_flat) / 2 + flat_to_flat * 0.75)
         ((100 + thickness) / 2 + flat_to_flat / 4) ((100 - flat_to_flat) / 2 + flat_to_flat * 0.75)
         "#FFFFFF" 2]

/-- Screw generator `button_head_side` (side keys button_head, button). -/
noncomputable def button_head_side : Svg :=
  ⟨100, 100, "0 0 100 100", button_side 50 20 ++ bolt_shaft 25 80 false⟩

/-- Screw generator `cap_head_side` (side keys cap_head, cap). -/
noncomputable def cap_head_side : Svg :=
  ⟨100, 100, "0 0 100 100", cap_side 50 30 ++ bolt_shaft 25 80 false⟩

/-- Screw generator `hex_head_side` (side keys hex_head, hex, bolt). -/
noncomputable def hex_head_side : Svg :=
  ⟨100, 100, "0 0 100 100", cap_side 50 30 ++ bolt_shaft 25 80 false⟩

/-- Screw generator `flush_head_side` (side keys flush_head, flat_head, flat, countersunk). -/
noncomputable def flush_head_side : Svg :=
  ⟨100, 100, "0 0 100 100", countersunk_side 50 20 ++ bolt_shaft 20 80 false⟩

/-- Screw generator `wood_screw_side` (side keys wood_screw, wood). -/
noncomputable def wood_screw_side : Svg :=
  ⟨100, 100, "0 0 100 100", countersunk_side 50 20 ++ bolt_shaft 20 80 true⟩

/-- Washer generator `washer_std_side` (side keys washer_std, washer). -/
noncomputable def washer_std_side (outer_diameter inner_diameter : ℝ) : Svg :=
  let thickness := outer_diameter / 6
  ⟨100, 100, "0 0 100 100",
    [.rect ((100 - thickness) / 2) ((100 - outer_diameter) / 2) thickness outer_diameter "#000000",
     .rect ((100 - thickness) / 2) ((100 - inner_diameter) / 2) thickness inner_diameter "#FFFFFF"]⟩

/-- Washer generator `washer_std_top` (top keys washer_std, washer). -/
noncomputable def washer_std_top (outer_diameter inner_diameter : ℝ) : Svg :=
  ⟨100, 100, "0 0 100 100", annulus (outer_diameter / 2) (inner_diameter / 2) "#000000"⟩

/-- Washer generator `washer_fender_side` (side keys washer_fender, fender). -/
noncomputable def washer_fender_side (diameter : ℝ) : Svg :=
  washer_std_side diameter (diameter / 3)

/-- Washer generator `washer_fender_top` (top keys washer_fender, fender). -/
noncomputable def washer_fender_top (diameter : ℝ) : Svg :=
  washer_std_top diameter (diameter / 3)

/-- Washer generator `washer_split_side` (side keys washer_split, split). -/
noncomputable def washer_split_side (diameter : ℝ) : Svg :=
  let outer_diameter := diameter
  let inner_diameter := diameter / 2
  let thickness := diameter / 10
  ⟨100, 100, "0 0 100 100",
    [.qpath ((100 - thickness) / 2, (100 - outer_diameter) / 2 + 5)
        ((100 - thickness) / 2 - 5, 50 - 5) ((100 - thickness) / 2, 50)
        ((100 - thickness) / 2 + 5, 50 + 5) ((100 - thickness) / 2, (100 + outer_diameter) / 2 - 5)
        "#000000" thickness "none",
     .line ((100 + thickness) / 2 + 10) ((100 - inner_diameter) / 2)
        ((100 - thickness) / 2 - 10) ((100 + inner_diameter) / 2) "#FFFFFF" thickness]⟩

/-- Washer generator `washer_split_top` (top keys washer_split, split). -/
noncomputable def washer_split_top (diameter : ℝ) : Svg :=
  let outer_radius := diameter / 2
  let inner_radius := outer_radius / 2
  let gap_angle : ℝ := 20
  let gap_width := diameter / 10
  ⟨100, 100, "0 0 100 100",
    annulus outer_radius inner_radius "#000000" ++
    [.rectT 50 (50 - gap_width / 2) 50 gap_width (-gap_angle) 50 50 "#FFFFFF"]⟩

/-- Washer generator `washer_star_inner_side` (side keys washer_star_inner, star_inner). -/
noncomputable def washer_star_inner_side (diameter : ℝ) : Svg :=
  washer_std_side diameter (diameter / 2)

/-- Washer generator `washer_star_inner_top` (top keys washer_star_inner, star_inner). -/
noncomputable def washer_star_inner_top (diameter : ℝ) : Svg :=
  let outer_radius := diameter * 0.5
  let inner_radius := outer_radius * 0.5
  let teeth := star 12 (outer_radius * 0.8) (inner_radius * 0.8)
  ⟨100, 100, "0 0 100 100",
    annulus outer_radius inner_radius "#000000" ++
    [.path teeth "#FFFFFF", .circle 50 50 (inner_radius * 1.1) "#FFFFFF"]⟩

/-- Washer generator `washer_star_outer_side` (side keys washer_star_outer, star_outer, star). -/
noncomputable def washer_star_outer_side (diameter : ℝ) : Svg :=
  washer_std_side diameter (diameter / 2)

/-- Washer generator `washer_star_outer_top` (top keys washer_star_outer, star_outer, star). -/
noncomputable def washer_star_outer_top (diameter : ℝ) : Svg :=
  let outer_radius := diameter * 0.4
  let inner_radius := outer_radius * 0.7
  let teeth := star 12 (outer_radius * 1.3) inner_radius
  ⟨100, 100, "0 0 100 100",
    [.path teeth "#000000",
     .circle 50 50 outer_radius "#000000",
     .circle 50 50 inner_radius "#FFFFFF"]⟩

/-- Nut generator `nut_standard_top` (top keys nut_standard, nut). -/
noncomputable def nut_standard_top (diameter : ℝ) : Svg :=
  ⟨100, 100, "0 0 100 100", nut_hex_top diameter "#000000"⟩

/-- Nut generator `nut_standard_side` (side keys nut_standard, nut). -/
noncomputable def nut_standard_side (diameter : ℝ) : Svg :=
  ⟨100, 100, "0 0 100 100", nut_hex_side 30 diameter "#000000"⟩

/-- Nut generator `nut_thin_top` (top keys nut_thin, thin_nut). -/
noncomputable def nut_thin_top (diameter : ℝ) : Svg :=
  ⟨100, 100, "0 0 100 100", nut_hex_top diameter "#000000"⟩

/-- Nut generator `nut_thin_side` (side keys nut_thin, thin_nut). -/
noncomputable def nut_thin_side (diameter : ℝ) : Svg :=
  ⟨100, 100, "0 0 100 100", nut_hex_side 30 diameter "#000000"⟩

/-- Nut generator `nut_lock_top` (top keys nut_lock, nyloc). -/
noncomputable def nut_lock_top (diameter : ℝ) : Svg :=
  ⟨100, 100, "0 0 100 100",
    nut_hex_top diameter "#000000" ++ [.circle 50 50 (diameter * 0.2) "#FFFFFF"]⟩

/-- Nut generator `nut_lock_side` (side keys nut_lock, nyloc); note the
`viewBox="5 0 100 100"` in the source. -/
noncomputable def nut_lock_side (diameter : ℝ) : Svg :=
  let thickness : ℝ := 30
  let radius := diameter * 0.5
  ⟨100, 100, "5 0 100 100",
    nut_hex_side 30 diameter "#000000" ++
    [.rect 50 (50 - radius + diameter * 0.1) thickness (diameter * 0.8) "#000000"]⟩

/-- Nut generator `nut_flange_top` (top keys nut_flange, flange_nut). -/
noncomputable def nut_flange_top (diameter : ℝ) : Svg :=
  ⟨100, 100, "0 0 100 100",
    .circle 50 50 (diameter * 0.6) "#000000" ::
    nut_hex_top (diameter * 0.9) "#FFFFFF" ++ nut_hex_top (diameter * 0.8) "#000000"⟩

/-- Nut generator `nut_flange_side` (side keys nut_flange, flange_nut). -/
noncomputable def nut_flange_side (diameter : ℝ) : Svg :=
  let thickness : ℝ := 30
  let flange_diameter := diameter * 1.2
  let flange_thickness := thickness * 0.4
  ⟨100, 100, "0 0 100 100",
    nut_hex_side thickness diameter "#000000" ++
    [.rect ((100 - thickness) / 2) ((100 - flange_diameter) / 2)
        flange_thickness flange_diameter "#000000"]⟩

/-- Nut generator `nut_cap_top` (top keys nut_cap, cap_nut, acorn, acorn_nut). -/
noncomputable def nut_cap_top (diameter : ℝ) : Svg :=
  ⟨100, 100, "0 0 100 100",
    [.polygon (polygon_points 6 diameter 50 50 0) "#000000",
     .circle 50 50 (diameter * 0.4) "#FFFFFF",
     .circle 50 50 (diameter * 0.35) "#000000"]⟩

/-- Nut generator `nut_cap_side` (side keys nut_cap, cap_nut, acorn, acorn_nut). -/
noncomputable def nut_cap_side (diameter : ℝ) : Svg :=
  let thickness : ℝ := 20
  ⟨100, 100, "0 0 100 100",
    [.ellipse 50 50 (diameter * 0.4) (diameter * 0.4) "#000000",
     .rect 0 0 50 100 "#FFFFFF",
     .rect (100 / 2 - thickness) ((100 - diameter) / 2) thickness diameter "#000000",
     .rect 50 0 (thickness * 0.2) 100 "#FFFFFF"]⟩

/-- Nut generator `nut_wing_top` (top keys nut_wing, wing_nut, wing). -/
noncomputable def nut_wing_top (diameter : ℝ) : Svg :=
  let wing_width := diameter * 0.25
  let wing_height := diameter * 0.25
  let wing_offset : ℝ := 0
  ⟨100, 100, "0 0 100 100",
    annulus (diameter * 0.4) (diameter * 0.2) "#000000" ++
    [.rectT ((100 - wing_width) / 2) wing_offset wing_width wing_height 45 50 50 "#000000",
     .rectT ((100 - wing_width) / 2) (100 - wing_height - wing_offset)
        wing_width wing_height 45 50 50 "#000000"]⟩

/-- Nut generator `nut_wing_side` (side keys nut_wing, wing_nut, wing); note
the `viewBox="5 0 100 100"` in the source. -/
noncomputable def nut_wing_side (diameter : ℝ) : Svg :=
  let wing_width := diameter * 0.6
  let wing_height := diameter * 0.2
  let inner_diameter := diameter * 0.6
  let base_y := (100 - inner_diameter) / 2
  let wing_angle : ℝ := 60
  ⟨100, 100, "5 0 100 100",
    [.rectT 50 (base_y + wing_height) wing_width wing_height (-wing_angle) 50 50 "#000000",
     .rectT 50 (base_y + wing_height) wing_width wing_height wing_angle 50 50 "#000000"] ++
    nut_hex_side 30 inner_diameter "#000000"⟩

/-- Model of Python `range(a, b, step)` for positive `step`, as used by the
knurl loops of `insert_heat_side`. -/
def rangeStepPos (a b step : ℤ) : List ℤ :=
  (List.range ((b - a + step - 1) / step).toNat).map fun (k : ℕ) => a + k * step

/-- Insert generator `insert_heat_top` (top keys insert_heat, heat_insert,
heat_set_insert, hsi, heat_set, insert_press). -/
noncomputable def insert_heat_top (diameter : ℝ) : Svg :=
  ⟨100, 100, "0 0 100 100",
    [.path (star 20 (diameter * 0.6) (diameter * 0.5)) "#000000",
     .circle 50 50 (diameter * 0.2) "#FFFFFF"]⟩

/-- Insert generator `insert_heat_side` (side keys insert_heat, heat_insert,
heat_set_insert, hsi, heat_set).  Python `int()` truncation is modelled by
`Int.floor`; the truncated values are nonnegative for the default sizes. -/
noncomputable def insert_heat_side (diameter length : ℝ) : Svg :=
  let wide_height := length / 3
  let wide_width := diameter * 0.5
  let narrow_height := length / 6
  let narrow_width := diameter * 0.4
  let top := max (100 - length * 1.3) 0
  let left : ℝ := 5
  let rects : List Elem :=
    [.rect (left + (100 - wide_width) / 2) top wide_width wide_height "#000000",
     .rect (left + (100 - narrow_width) / 2) (top + wide_height)
        narrow_width narrow_height "#000000",
     .rect (left + (100 - wide_width) / 2) (top + wide_height + narrow_height)
        wide_width wide_height "#000000",
     .rect (left + (100 - narrow_width) / 2) (top + wide_height + narrow_height + wide_height)
        narrow_width narrow_height "#000000"]
  let knurl_angle : ℝ := 30
  let knurl_spacing : ℤ := 10
  let knurl_height := wide_height
  let xs := rangeStepPos ⌊(100 - wide_width) / 2⌋ (⌊(100 + wide_width) / 2⌋ + knurl_spacing)
      knurl_spacing
  let left_knurl_lines := xs.map fun (x : ℤ) =>
    let x1 := (x : ℝ) + left
    Elem.line x1 top (x1 - knurl_height * Real.tan (radians knurl_angle))
      (top + knurl_height) "#FFFFFF" 2
  let right_knurl_lines := xs.map fun (x : ℤ) =>
    let x1 := (x : ℝ) + left
    Elem.line x1 (top + wide_height + narrow_height)
      (x1 + knurl_height * Real.tan (radians knurl_angle))
      (top + wide_height + narrow_height + knurl_height) "#FFFFFF" 2
  ⟨100, 100, "0 0 100 100", rects ++ left_knurl_lines ++ right_knurl_lines⟩

/-- Insert generator `insert_wood_top` (top keys insert_wood, wood_insert). -/
noncomputable def insert_wood_top (diameter : ℝ) : Svg :=
  let teeth := (List.range 12).map fun (i : ℕ) =>
    Elem.rectT 50 (50 + diameter * 0.4) (diameter * 0.1) (diameter * 0.1)
      ((i : ℝ) * 360 / 12) 50 50 "#ffffff"
  ⟨100, 100, "0 0 100 100",
    [.circle 50 50 (diameter * 0.5) "#000000",
     .circle 50 50 (diameter * 0.2) "#FFFFFF"] ++ teeth⟩

/-- Insert generator `insert_wood_side` (side keys insert_wood, wood_insert). -/
noncomputable def insert_wood_side (diameter : ℝ) : Svg :=
  let thread_spacing : ℝ := 8
  let radius := diameter / 2
  let threads := (List.range 7).map fun (i : ℕ) =>
    Elem.line (50 - radius) (30 + (i : ℝ) * thread_spacing) (50 + radius)
      (30 + (i : ℝ) * thread_spacing - radius * 0.4) "#FFFFFF" 2
  ⟨100, 100, "0 0 100 100",
    [.rect (50 - radius) ((100 - diameter * 0.7) / 2) diameter (diameter * 0.7) "#000000",
     .path ⟨[(50 - radius, 70), (50 + radius, 70),
             (50 + radius * 0.7, 90), (50 - radius * 0.7, 90)], true⟩ "#000000"] ++
    threads ++ [.rect 45 25 10 15 "#FFFFFF"]⟩

/-- Insert generator `insert_press_side` (side keys insert_press, press_insert). -/
noncomputable def insert_press_side (diameter : ℝ) : Svg :=
  let radius := diameter / 2
  let height := diameter * 1.2
  let section_height := height * 0.25
  let groove_spacing := diameter * 0.2
  let upper_grooves := (List.range 8).map fun (i : ℕ) =>
    Elem.rect (50 - radius + (i : ℝ) * groove_spacing - groove_spacing / 3)
      (100 - height - section_height) 2 section_height "#FFFFFF"
  let lower_grooves := (List.range 8).map fun (i : ℕ) =>
    Elem.rect (50 - radius + (i : ℝ) * groove_spacing - groove_spacing / 2)
      ((100 - height) / 2 + height - section_height) 2 section_height "#FFFFFF"
  ⟨100, 100, "0 0 100 100",
    [.rect (50 - radius) ((100 - height) / 2) diameter section_height "#000000",
     .rect (50 - radius) ((100 - height) / 2 + height - section_height)
        diameter section_height "#000000",
     .rect (50 - radius * 0.7) ((100 - height) / 2 + section_height)
        (diameter * 0.7) (height - 2 * section_height) "#000000"] ++
    upper_grooves ++ lower_grooves⟩

/-- Head generator `head_hex_top` (top keys head_hex, hex_head, hex). -/
noncomputable def head_hex_top (diameter : ℝ) : Svg :=
  let flat_to_flat := diameter * Real.sqrt 3 / 2
  ⟨100, 100, "0 0 100 100",
    [.polygon (polygon_points 6 flat_to_flat 50 50 30) "#000000"]⟩

/-- Head generator `head_socket_top` (top keys head_socket, socket_head, socket). -/
noncomputable def head_socket_top (diameter : ℝ) : Svg :=
  let flat_to_flat := diameter / 2
  ⟨100, 100, "0 0 100 100",
    [.circle 50 50 (diameter * 0.5) "#000000",
     .polygon (polygon_points 6 flat_to_flat 50 50 0) "#FFFFFF"]⟩

/-- Head generator `head_torx_top` (top keys head_torx, torx_head, torx). -/
noncomputable def head_torx_top (diameter : ℝ) : Svg :=
  ⟨100, 100, "0 0 100 100",
    [.circle 50 50 (diameter * 0.5) "#000000",
     .path (star 6 (diameter * 0.3) (diameter * 0.2)) "#FFFFFF"]⟩

/-- Head generator `head_square_top` (top keys head_square, square_head,
square, robertson, robertson_head). -/
noncomputable def head_square_top (diameter : ℝ) : Svg :=
  let square_size := diameter * 0.4
  ⟨100, 100, "0 0 100 100",
    [.circle 50 50 (diameter * 0.5) "#000000",
     .rect (50 - square_size / 2) (50 - square_size / 2) square_size square_size "#FFFFFF"]⟩

/-- Model of `shapes.slot`. -/
noncomputable def slot (length width angle : ℝ) : Elem :=
  .rectT ((100 - length) / 2) ((100 - width) / 2) length width angle 50 50 "#FFFFFF"

/-- Head generator `head_slotted_top` (top keys head_slotted, slotted_head,
slotted, flat_head, flat). -/
noncomputable def head_slotted_top (diameter : ℝ) : Svg :=
  let radius := diameter * 0.5
  ⟨100, 100, "0 0 100 100", [.circle 50 50 radius "#000000", slot 75 10 0]⟩

/-- Head generator `head_phillips_top` (top keys head_phillips, phillips_head, phillips). -/
noncomputable def head_phillips_top (diameter : ℝ) : Svg :=
  let radius := diameter * 0.5
  ⟨100, 100, "0 0 100 100",
    [.circle 50 50 radius "#000000", slot 75 10 0, slot 75 10 90]⟩

/-- Head generator `head_pozidriv_top` (top keys head_pozidriv, pozidriv_head,
pozidriv, pozi). -/
noncomputable def head_pozidriv_top (diameter : ℝ) : Svg :=
  ⟨100, 100, "0 0 100 100",
    [.circle 50 50 (diameter * 0.5) "#000000",
     slot 75 10 0, slot 75 10 90, slot 50 5 45, slot 50 5 (-45)]⟩

/-- Bearing generator `bearing_side` (side key bearing). -/
noncomputable def bearing_side (outer_diameter inner_diameter : ℝ) : Svg :=
  let thickness := outer_diameter / 3
  ⟨100, 100, "0 0 100 100",
    [.rect ((100 - thickness) / 2) ((100 - outer_diameter) / 2) thickness outer_diameter "#000000",
     .rect ((100 - thickness) / 2) ((100 - inner_diameter) / 2) thickness inner_diameter "#FFFFFF"]⟩

/-- Bearing generator `bearing_flange_side` (side keys bearing_flange, flange_bearing). -/
noncomputable def bearing_flange_side (outer_diameter inner_diameter : ℝ) : Svg :=
  let thickness := outer_diameter / 3
  let flange_diameter := outer_diameter * 1.2
  let flange_height := (flange_diameter - outer_diameter) / 2
  ⟨100, 100, "0 0 100 100",
    [.rect ((100 - thickness) / 2) ((100 - outer_diameter) / 2) thickness outer_diameter "#000000",
     .rect ((100 - thickness) / 2) ((100 - flange_diameter) / 2)
        flange_height flange_diameter "#000000",
     .rect ((100 - thickness) / 2) ((100 - inner_diameter) / 2) thickness inner_diameter "#FFFFFF"]⟩

/-- Bearing generator `bearing_top` (top key bearing). -/
noncomputable def bearing_top (outer_diameter inner_diameter : ℝ) : Svg :=
  let outer_radius := outer_diameter * 0.5
  let inner_radius := inner_diameter * 0.5
  ⟨100, 100, "0 0 100 100",
    [.circle 50 50 outer_radius "#000000",
     .circle 50 50 (outer_radius * 0.8) "#FFFFFF",
     .circle 50 50 (inner_radius * 1.2) "#000000",
     .circle 50 50 inner_radius "#FFFFFF"]⟩

/-- The coil-line loop of `shapes.spring_side`, with its early `break`:
the first argument is the remaining iteration count, the second the index. -/
noncomputable def spring_coil_lines (start_x end_x start_y end_y coil_spacing : ℝ) :
    ℕ → ℕ → List Elem
  | 0, _ => []
  | n + 1, i =>
    let y := start_y + (i : ℝ) * coil_spacing
    if y + coil_spacing > end_y then
      if y < end_y then [Elem.line start_x y end_x end_y "#000000" 5] else []
    else
      Elem.line start_x y end_x (y + coil_spacing) "#000000" 5 ::
        spring_coil_lines start_x end_x start_y end_y coil_spacing n (i + 1)

/-- Spring generator `spring_side` (side keys spring, coil, coil_spring). -/
noncomputable def spring_side (diameter length : ℝ) : Svg :=
  let start_y := (100 - length) / 2
  let end_y := start_y + length
  let start_x := (100 - diameter) / 2
  let end_x := start_x + diameter
  let coil_spacing := diameter * 2 / 7
  ⟨100, 100, "0 0 100 100",
    [.line start_x start_y end_x start_y "#000000" 8,
     .line start_x end_y end_x end_y "#000000" 8] ++
    spring_coil_lines start_x end_x start_y end_y coil_spacing 7 0⟩

/-- Spring generator `spring_top` (top keys spring, coil, coil_spring). -/
noncomputable def spring_top (diameter : ℝ) : Svg :=
  let outer_radius := diameter * 0.5
  let coil_radius := diameter * 0.35
  ⟨100, 100, "0 0 100 100",
    [.circle 50 50 outer_radius "#000000",
     .circle 50 50 coil_radius "#FFFFFF"]⟩

/-- An icon registry, as in `shapes.IconRegistry`: an insertion-ordered map
from lowercase key to generator; invoking an entry with `()` corresponds to
the caller invoking the Python function with no arguments, so each stored
closure applies the source defaults. -/
abbrev Registry := List (String × (Unit → Svg))

/-- Model of Python `str.lower()` for the ASCII keys used by the registries,
written over the character list so that it reduces definitionally. -/
def py_lower (s : String) : String := String.mk (s.data.map Char.toLower)

/-- Model of the inner loop of the `icon_generator` decorator: register the
function under each lowercased name, failing on a key already present. -/
def addIcon (reg : Registry) (names : List String) (f : Unit → Svg) :
    Except String Registry :=
  match names with
  | [] => .ok reg
  | name :: rest =>
    let name_lower := py_lower name
    if (List.lookup name_lower reg).isSome then
      .error ("Icon generator for " ++ name_lower ++ " already registered")
    else addIcon (reg ++ [(name_lower, f)]) rest f

noncomputable def button_head_side_gen : Unit → Svg := fun _ => button_head_side
noncomputable def cap_head_side_gen : Unit → Svg := fun _ => cap_head_side
noncomputable def hex_head_side_gen : Unit → Svg := fun _ => hex_head_side
noncomputable def flush_head_side_gen : Unit → Svg := fun _ => flush_head_side
noncomputable def wood_screw_side_gen : Unit → Svg := fun _ => wood_screw_side
noncomputable def washer_std_side_gen : Unit → Svg := fun _ => washer_std_side 80 35
noncomputable def washer_std_top_gen : Unit → Svg := fun _ => washer_std_top 80 35
noncomputable def washer_fender_side_gen : Unit → Svg := fun _ => washer_fender_side 80
noncomputable def washer_fender_top_gen : Unit → Svg := fun _ => washer_fender_top 80
noncomputable def washer_split_side_gen : Unit → Svg := fun _ => washer_split_side 80
noncomputable def washer_split_top_gen : Unit → Svg := fun _ => washer_split_top 80
noncomputable def washer_star_inner_side_gen : Unit → Svg := fun _ => washer_star_inner_side 80
noncomputable def washer_star_inner_top_gen : Unit → Svg := fun _ => washer_star_inner_top 80
noncomputable def washer_star_outer_side_gen : Unit → Svg := fun _ => washer_star_outer_side 80
noncomputable def washer_star_outer_top_gen : Unit → Svg := fun _ => washer_star_outer_top 80
noncomputable def nut_standard_top_gen : Unit → Svg := fun _ => nut_standard_top 80
noncomputable def nut_standard_side_gen : Unit → Svg := fun _ => nut_standard_side 80
noncomputable def nut_thin_top_gen : Unit → Svg := fun _ => nut_thin_top 80
noncomputable def nut_thin_side_gen : Unit → Svg := fun _ => nut_thin_side 80
noncomputable def nut_lock_top_gen : Unit → Svg := fun _ => nut_lock_top 80
noncomputable def nut_lock_side_gen : Unit → Svg := fun _ => nut_lock_side 80
noncomputable def nut_flange_top_gen : Unit → Svg := fun _ => nut_flange_top 80
noncomputable def nut_flange_side_gen : Unit → Svg := fun _ => nut_flange_side 80
noncomputable def nut_cap_top_gen : Unit → Svg := fun _ => nut_cap_top 80
noncomputable def nut_cap_side_gen : Unit → Svg := fun _ => nut_cap_side 80
noncomputable def nut_wing_top_gen : Unit → Svg := fun _ => nut_wing_top 80
noncomputable def nut_wing_side_gen : Unit → Svg := fun _ => nut_wing_side 80
noncomputable def insert_heat_top_gen : Unit → Svg := fun _ => insert_heat_top 80
noncomputable def insert_heat_side_gen : Unit → Svg := fun _ => insert_heat_side 80 60
noncomputable def insert_wood_top_gen : Unit → Svg := fun _ => insert_wood_top 80
noncomputable def insert_wood_side_gen : Unit → Svg := fun _ => insert_wood_side 60
noncomputable def insert_press_side_gen : Unit → Svg := fun _ => insert_press_side 60
noncomputable def head_hex_top_gen : Unit → Svg := fun _ => head_hex_top 80
noncomputable def head_socket_top_gen : Unit → Svg := fun _ => head_socket_top 80
noncomputable def head_torx_top_gen : Unit → Svg := fun _ => head_torx_top 80
noncomputable def head_square_top_gen : Unit → Svg := fun _ => head_square_top 80
noncomputable def head_slotted_top_gen : Unit → Svg := fun _ => head_slotted_top 80
noncomputable def head_phillips_top_gen : Unit → Svg := fun _ => head_phillips_top 80
noncomputable def head_pozidriv_top_gen : Unit → Svg := fun _ => head_pozidriv_top 80
noncomputable def bearing_side_gen : Unit → Svg := fun _ => bearing_side 80 30
noncomputable def bearing_flange_side_gen : Unit → Svg := fun _ => bearing_flange_side 80 30
noncomputable def bearing_top_gen : Unit → Svg := fun _ => bearing_top 80 30
noncomputable def spring_side_gen : Unit → Svg := fun _ => spring_side 40 60
noncomputable def spring_top_gen : Unit → Svg := fun _ => spring_top 80

/-- The side-view registry, built by the `icon_generator("side", ...)`
registrations of `shapes.py`, in source order. -/
noncomputable def side_registry_e : Except String Registry := do
  let r ← addIcon [] ["button_head", "button"] button_head_side_gen
  let r ← addIcon r ["cap_head", "cap"] cap_head_side_gen
  let r ← addIcon r ["hex_head", "hex", "bolt"] hex_head_side_gen
  let r ← addIcon r ["flush_head", "flat_head", "flat", "countersunk"] flush_head_side_gen
  let r ← addIcon r ["wood_screw", "wood"] wood_screw_side_gen
  let r ← addIcon r ["washer_std", "washer"] washer_std_side_gen
  let r ← addIcon r ["washer_fender", "fender"] washer_fender_side_gen
  let r ← addIcon r ["washer_split", "split"] washer_split_side_gen
  let r ← addIcon r ["washer_star_inner", "star_inner"] washer_star_inner_side_gen
  let r ← addIcon r ["washer_star_outer", "star_outer", "star"] washer_star_outer_side_gen
  let r ← addIcon r ["nut_standard", "nut"] nut_standard_side_gen
  let r ← addIcon r ["nut_thin", "thin_nut"] nut_thin_side_gen
  let r ← addIcon r ["nut_lock", "nyloc"] nut_lock_side_gen
  let r ← addIcon r ["nut_flange", "flange_nut"] nut_flange_side_gen
  let r ← addIcon r ["nut_cap", "cap_nut", "acorn", "acorn_nut"] nut_cap_side_gen
  let r ← addIcon r ["nut_wing", "wing_nut", "wing"] nut_wing_side_gen
  let r ← addIcon r ["insert_heat", "heat_insert", "heat_set_insert", "hsi", "heat_set"]
      insert_heat_side_gen
  let r ← addIcon r ["insert_wood", "wood_insert"] insert_wood_side_gen
  let r ← addIcon r ["insert_press", "press_insert"] insert_press_side_gen
  let r ← addIcon r ["bearing"] bearing_side_gen
  let r ← addIcon r ["bearing_flange", "flange_bearing"] bearing_flange_side_gen
  addIcon r ["spring", "coil", "coil_spring"] spring_side_gen

/-- The top-view registry, built by the `icon_generator("top", ...)`
registrations of `shapes.py`, in source order. -/
noncomputable def top_registry_e : Except String Registry := do
  let r ← addIcon [] ["washer_std", "washer"] washer_std_top_gen
  let r ← addIcon r ["washer_fender", "fender"] washer_fender_top_gen
  let r ← addIcon r ["washer_split", "split"] washer_split_top_gen
  let r ← addIcon r ["washer_star_inner", "star_inner"] washer_star_inner_top_gen
  let r ← addIcon r ["washer_star_outer", "star_outer", "star"] washer_star_outer_top_gen
  let r ← addIcon r ["nut_standard", "nut"] nut_standard_top_gen
  let r ← addIcon r ["nut_thin", "thin_nut"] nut_thin_top_gen
  let r ← addIcon r ["nut_lock", "nyloc"] nut_lock_top_gen
  let r ← addIcon r ["nut_flange", "flange_nut"] nut_flange_top_gen
  let r ← addIcon r ["nut_cap", "cap_nut", "acorn", "acorn_nut"] nut_cap_top_gen
  let r ← addIcon r ["nut_wing", "wing_nut", "wing"] nut_wing_top_gen
  let r ← addIcon r
      ["insert_heat", "heat_insert", "heat_set_insert", "hsi", "heat_set", "insert_press"]
      insert_heat_top_gen
  let r ← addIcon r ["insert_wood", "wood_insert"] insert_wood_top_gen
  let r ← addIcon r ["head_hex", "hex_head", "hex"] head_hex_top_gen
  let r ← addIcon r ["head_socket", "socket_head", "socket"] head_socket_top_gen
  let r ← addIcon r ["head_torx", "torx_head", "torx"] head_torx_top_gen
  let r ← addIcon r ["head_square", "square_head", "square", "robertson", "robertson_head"]
      head_square_top_gen
  let r ← addIcon r ["head_slotted", "slotted_head", "slotted", "flat_head", "flat"]
      head_slotted_top_gen
  let r ← addIcon r ["head_phillips", "phillips_head", "phillips"] head_phillips_top_gen
  let r ← addIcon r ["head_pozidriv", "pozidriv_head", "pozidriv", "pozi"] head_pozidriv_top_gen
  let r ← addIcon r ["bearing"] bearing_top_gen
  addIcon r ["spring", "coil", "coil_spring"] spring_top_gen

/-- Extract the registry from a successful registration run. -/
def from_reg : Except String Registry → Registry
  | .ok r => r
  | .error _ => []

noncomputable def side_registry : Registry := from_reg side_registry_e

noncomputable def top_registry : Registry := from_reg top_registry_e

/-- Model of `IconRegistry.<which>_generators.get(symbol)`. -/
def reg_get (reg : Registry) (symbol : String) : Option (Unit → Svg) :=
  List.lookup symbol reg

/-- The icon produced for a symbol already lowercased: `none` models the
empty fragment. -/
noncomputable def icon_for (reg : Registry) (symbol : String) : Option Svg :=
  (reg_get reg symbol).map fun g => g ()

/-- The whitespace class of Python `str.strip()` and of the regex `\\s`. -/
def py_ws (c : Char) : Bool :=
  c == ' ' || c == '\t' || c == '\n' || c == '\r' || c == '\x0b' || c == '\x0c'

/-- Model of Python `str.strip()` on a character list. -/
def py_strip (l : List Char) : List Char :=
  ((l.dropWhile py_ws).reverse.dropWhile py_ws).reverse

/-- Scan for the closing token of a lazy regex match: returns the remainder
after the first occurrence of `closing`, or `none` if it is not found (or a
newline intervenes, when the regex is compiled without DOTALL). -/
def dropThroughClose (closing : List Char) (noNl : Bool) : List Char → Option (List Char)
  | [] => none
  | c :: rest =>
    if List.isPrefixOf closing (c :: rest) then some ((c :: rest).drop closing.length)
    else if noNl && c == '\n' then none
    else dropThroughClose closing noNl rest

/-- Model of `re.sub(opening .*? closing, "", _)`: delete every non-greedy
match, scanning left to right.  The first argument is fuel (one unit per
examined character suffices). -/
def removeDelim (opening closing : List Char) (noNl : Bool) : ℕ → List Char → List Char
  | 0, l => l
  | _ + 1, [] => []
  | fuel + 1, c :: rest =>
    if List.isPrefixOf opening (c :: rest) then
      match dropThroughClose closing noNl ((c :: rest).drop opening.length) with
      | some rest2 => removeDelim opening closing noNl fuel rest2
      | none => c :: removeDelim opening closing noNl fuel rest
    else c :: removeDelim opening closing noNl fuel rest

/-- Model of `re.sub(r">\\s+<", "><", _)`. -/
def collapse_ws : ℕ → List Char → List Char
  | 0, l => l
  | _ + 1, [] => []
  | fuel + 1, c :: rest =>
    if c == '>' then
      let ws := rest.takeWhile py_ws
      match ws, rest.drop ws.length with
      | _ :: _, '<' :: tail => '>' :: '<' :: collapse_ws fuel tail
      | _, _ => c :: collapse_ws fuel rest
    else c :: collapse_ws fuel rest

/-- The stripping pipeline of `generator.sanitize_svg`: remove the XML
declaration, the DOCTYPE declaration, comments (with DOTALL), and whitespace
between tags, stripping surrounding whitespace after each pass and once more
at the end. -/
def sanitize_core (svg : String) : List Char :=
  let l0 := svg.data
  let l1 := py_strip (removeDelim "<?xml".data "?>".data true l0.length l0)
  let l2 := py_strip (removeDelim "<!DOCTYPE".data ">".data true l1.length l1)
  let l3 := py_strip (removeDelim "<!--".data "-->".data false l2.length l2)
  py_strip (py_strip (collapse_ws l3.length l3))

/-- Model of `generator.sanitize_svg`: the empty string passes through, the
cleaned content must start with `<` and end with `>` when non-empty, or a
`ValueError` (modelled by `Except.error`) is raised. -/
def sanitize_svg (svg : String) : Except String String :=
  if svg = "" then .ok ""
  else if sanitize_core svg ≠ [] ∧
      ¬((sanitize_core svg).head? = some '<' ∧ (sanitize_core svg).getLast? = some '>') then
    .error "Invalid SVG content"
  else .ok (String.mk (sanitize_core svg))

/-- A parsed spreadsheet row, as produced by the `parse_*` functions of
`generator.py` (all five fields stripped strings). -/
structure Row where
  name : String
  description : String
  top_symbol : String
  side_symbol : String
  reorder_url : String

/-- The icon generation step of `generate_labels` for one view: an empty
symbol yields an empty icon and no report; an unregistered symbol yields an
empty icon plus one logged error; a registered symbol yields the generated
icon.  `none` models the empty fragment; the error list models the calls to
`error(...)`. -/
noncomputable def gen_icon (reg : Registry) (which : String) (symbol : String) :
    Option Svg × List String :=
  if symbol = "" then (none, [])
  else
    match reg_get reg symbol with
    | none => (none, [which ++ " icon generator not found for " ++ symbol])
    | some g => (some (g ()), [])

/-- The icons and logged errors produced for one row. -/
structure RowIcons where
  top_icon : Option Svg
  side_icon : Option Svg
  errors : List String

/-- Per-row icon generation of `generate_labels` (lines 439-481): symbols are
lowercased, then looked up in the two registries. -/
noncomputable def process_row (top side : Registry) (r : Row) : RowIcons :=
  let t := gen_icon top "top" (py_lower r.top_symbol)
  let sd := gen_icon side "side" (py_lower r.side_symbol)
  ⟨t.1, sd.1, t.2 ++ sd.2⟩

/-- The row loop of `generate_labels`, with the registries threaded through
explicitly so that (absence of) mutation of `IconRegistry` is observable. -/
noncomputable def process_rows (regs : Registry × Registry) :
    List Row → (Registry × Registry) × List RowIcons
  | [] => (regs, [])
  | r :: rs =>
    let out := process_row regs.1 regs.2 r
    let rest := process_rows regs rs
    (rest.1, out :: rest.2)

/-- The checks of claim C3 on one registry entry: non-empty drawable element
list and the fixed 100 by 100 frame, with one of the two viewBox strings that
occur in the source. -/
def entry_ok (e : String × (Unit → Svg)) : Bool :=
  !(e.2 ()).elems.isEmpty && (e.2 ()).width == 100 && (e.2 ()).height == 100 &&
    ((e.2 ()).viewBox == "0 0 100 100" || (e.2 ()).viewBox == "5 0 100 100")

/-- Predicate selecting the white threading lines drawn by `bolt_shaft`. -/
def is_thread_line : Elem → Bool
  | .line _ _ _ _ stroke _ => stroke == "#FFFFFF"
  | _ => false

/-- The `y1` attribute of a line element (0 for other elements). -/
noncomputable def elem_y1 : Elem → ℝ
  | .line _ y1 _ _ _ _ => y1
  | _ => 0

/-- C3 (amended): every registered top-view and side-view generator, invoked
with its default arguments, yields a non-empty list of drawable elements
inside a `width="100" height="100"` frame; the viewBox is `0 0 100 100` for
all generators except `nut_lock_side` and `nut_wing_side`, which use the
equally sized but shifted `5 0 100 100`. -/
theorem registered_generators_well_formed :
    (top_registry ++ side_registry).length = 118 ∧
    ((top_registry ++ side_registry).all entry_ok) = true := by
  constructor
  · rfl
  · decide

/-- C3 counterexample: the registered side-view generators for `nut_lock` and
`washer` carry different viewBox frames, so the frame is not the same for
every generator. -/
theorem viewbox_not_uniform :
    ((reg_get side_registry "nut_lock").map fun g => (g ()).viewBox) = some "5 0 100 100" ∧
    ((reg_get side_registry "washer").map fun g => (g ()).viewBox) = some "0 0 100 100" ∧
    some ("5 0 100 100" : String) ≠ some ("0 0 100 100" : String) :=
  ⟨rfl, rfl, by decide⟩

/-- C6 counterexample: `washer_flat` is not a key of the side registry, so
requesting it yields the empty icon, which differs from the icon produced for
the registered key `washer`. -/
theorem washer_flat_counterexample :
    icon_for side_registry "washer_flat" = none ∧
    icon_for side_registry "washer" ≠ icon_for side_registry "washer_flat" := by
  refine ⟨rfl, ?_⟩
  intro h
  have hw : icon_for side_registry "washer" = some (washer_std_side_gen ()) := rfl
  have hf : icon_for side_registry "washer_flat" = none := rfl
  rw [hw, hf] at h
  exact Option.noConfusion h

/-- C6 (amended): the documented synonym of `washer` in the side registry is
`washer_std`, and the two keys map to the same generator, hence to identical
output. -/
theorem washer_synonyms_agree :
    icon_for side_registry "washer" = icon_for side_registry "washer_std" ∧
    (icon_for side_registry "washer").isSome = true :=
  ⟨rfl, rfl⟩

/-- C10: both star-washer side views delegate to the standard washer side
view with half the diameter as inner diameter, so they coincide with each
other, and the registry entries under the synonym keys `star_inner`,
`star_outer` and `star` produce identical icons. -/
theorem star_washer_sides_coincide (d : ℝ) :
    washer_star_inner_side d = washer_std_side d (d / 2) ∧
    washer_star_outer_side d = washer_std_side d (d / 2) ∧
    washer_star_inner_side d = washer_star_outer_side d ∧
    icon_for side_registry "star_inner" = icon_for side_registry "star_outer" ∧
    icon_for side_registry "star" = icon_for side_registry "star_inner" :=
  ⟨rfl, rfl, rfl, rfl, rfl⟩

/-- C8: icon generation is pure and deterministic.  Running the row loop
leaves the registries exactly as they were, and the output for each row is
the value of the pure function `process_row` at the initial registries and
that row alone, so any two runs on the same input produce the same output. -/
theorem generation_pure (regs : Registry × Registry) (rows : List Row) :
    process_rows regs rows = (regs, rows.map (process_row regs.1 regs.2)) := by
  induction rows with
  | nil => rfl
  | cons r rs ih => simp [process_rows, ih]

/-- Helper: a lookup that succeeds on the left part of an appended
association list is unchanged by the append. -/
theorem lookup_append_left {β : Type} {l₁ : List (String × β)} (l₂ : List (String × β))
    (k : String) (h : (List.lookup k l₁).isSome) :
    List.lookup k (l₁ ++ l₂) = List.lookup k l₁ := by
  induction l₁ with
  | nil => exact Bool.noConfusion h
  | cons e es ih =>
    obtain ⟨a, b⟩ := e
    by_cases hk : k == a
    · simp [List.lookup, hk]
    · simp only [List.cons_append, List.lookup, hk] at h ⊢
      exact ih h

/-- Helper: a lookup that misses the left part of an appended association
list falls through to the right part. -/
theorem lookup_append_right {β : Type} {l₁ : List (String × β)} (l₂ : List (String × β))
    (k : String) (h : List.lookup k l₁ = none) :
    List.lookup k (l₁ ++ l₂) = List.lookup k l₂ := by
  induction l₁ with
  | nil => rfl
  | cons e es ih =>
    obtain ⟨a, b⟩ := e
    by_cases hk : k == a
    · simp [List.lookup, hk] at h
    · simp only [List.lookup, hk] at h
      simp only [List.cons_append, List.lookup, hk]
      exact ih h

/-- Helper for C5: a name whose lowercased form is already present forces the
decorator model into the error branch. -/
theorem addIcon_dup (f : Unit → Svg) (names : List String) :
    ∀ (reg : Registry) (k : String), k ∈ names →
      (List.lookup (py_lower k) reg).isSome →
      ∃ msg, addIcon reg names f = .error msg := by
  induction names with
  | nil => intro reg k hk _; exact absurd hk (List.not_mem_nil k)
  | cons n rest ih =>
    intro reg k hk hdup
    by_cases hn : (List.lookup (py_lower n) reg).isSome
    · refine ⟨"Icon generator for " ++ py_lower n ++ " already registered", ?_⟩
      simp [addIcon, hn]
    · have hstep : addIcon reg (n :: rest) f = addIcon (reg ++ [(py_lower n, f)]) rest f := by
        simp [addIcon, hn]
      rcases List.mem_cons.mp hk with rfl | hk2
      · exact absurd hdup hn
      · have hdup2 : (List.lookup (py_lower k) (reg ++ [(py_lower n, f)])).isSome := by
          rw [lookup_append_left [(py_lower n, f)] (py_lower k) hdup]
          exact hdup
        obtain ⟨m, hm⟩ := ih (reg ++ [(py_lower n, f)]) k hk2 hdup2
        exact ⟨m, hstep ▸ hm⟩

/-- Helper for C5: registration of one fresh key appends it lowercased. -/
theorem addIcon_fresh (reg : Registry) (k : String) (f : Unit → Svg)
    (h : List.lookup (py_lower k) reg = none) :
    addIcon reg [k] f = .ok (reg ++ [(py_lower k, f)]) ∧
    List.lookup (py_lower k) (reg ++ [(py_lower k, f)]) = some f := by
  have hn : ¬(List.lookup (py_lower k) reg).isSome = true := by simp [h]
  constructor
  · simp [addIcon, hn]
  · rw [lookup_append_right [(py_lower k, f)] (py_lower k) h]
    simp [List.lookup]

/-- C5: registering a name whose lowercased form is already a key of the
registry makes the decorator model return a configuration error (at
registration time), while registering a single fresh name succeeds and stores
the generator under the lowercased key. -/
theorem icon_generator_spec :
    (∀ (reg : Registry) (names : List String) (f : Unit → Svg) (k : String),
      k ∈ names → (List.lookup (py_lower k) reg).isSome →
      ∃ msg, addIcon reg names f = .error msg) ∧
    (∀ (reg : Registry) (k : String) (f : Unit → Svg),
      List.lookup (py_lower k) reg = none →
      addIcon reg [k] f = .ok (reg ++ [(py_lower k, f)]) ∧
      List.lookup (py_lower k) (reg ++ [(py_lower k, f)]) = some f) :=
  ⟨fun reg names f k hk hdup => addIcon_dup f names reg k hk hdup,
   fun reg k f h => addIcon_fresh reg k f h⟩

/-- Witness for C5: re-registering `washer` over a registry that already holds
it errors, and registering the fresh mixed-case `Washer` over the empty
registry stores the generator under the lowercase key `washer`. -/
theorem icon_generator_spec_witness :
    (("washer" ∈ ["washer"] ∧
       (List.lookup (py_lower "washer")
         ([("washer", washer_std_side_gen)] : Registry)).isSome) ∧
     ∃ msg, addIcon [("washer", washer_std_side_gen)] ["washer"] washer_std_side_gen
        = .error msg) ∧
    ((List.lookup (py_lower "Washer") ([] : Registry) = none) ∧
     addIcon [] ["Washer"] washer_std_side_gen
        = .ok ([] ++ [(py_lower "Washer", washer_std_side_gen)]) ∧
     List.lookup (py_lower "Washer") ([] ++ [(py_lower "Washer", washer_std_side_gen)])
        = some washer_std_side_gen) :=
  ⟨⟨⟨by simp, by rfl⟩,
    icon_generator_spec.1 [("washer", washer_std_side_gen)] ["washer"]
      washer_std_side_gen "washer" (by simp) (by rfl)⟩,
   ⟨by rfl,
    icon_generator_spec.2 [] "Washer" washer_std_side_gen (by rfl)⟩⟩

/-- C4: during label generation, a non-empty symbol that is absent from the
relevant registry yields the empty icon fragment plus exactly one logged
lookup failure and no exception (the step is a total function); an empty
symbol yields the empty icon with no report; and the output for the rows
after any row is independent of that row. -/
theorem missing_symbol_spec (top : Registry) (s : String)
    (h1 : s ≠ "") (h2 : reg_get top s = none) :
    gen_icon top "top" s = (none, ["top icon generator not found for " ++ s]) ∧
    (gen_icon top "top" s).2.length = 1 ∧
    gen_icon top "top" "" = (none, []) ∧
    (∀ (side : Registry) (r : Row), py_lower r.top_symbol = s →
      py_lower r.side_symbol = "" →
      process_row top side r
        = ⟨none, none, ["top icon generator not found for " ++ s]⟩) ∧
    ∀ (regs : Registry × Registry) (r : Row) (rs : List Row),
      (process_rows regs (r :: rs)).2
        = process_row regs.1 regs.2 r :: (process_rows regs rs).2 := by
  refine ⟨?_, ?_, rfl, ?_, ?_⟩
  · simp [gen_icon, h1, h2]
  · simp [gen_icon, h1, h2]
  · intro side r hr1 hr2
    simp [process_row, hr1, hr2, gen_icon, h1, h2]
  · intro regs r rs; rfl

/-- Witness for C4 at the unregistered symbol `unobtainium` against the real
top-view registry. -/
theorem missing_symbol_spec_witness :
    ("unobtainium" ≠ "" ∧ reg_get top_registry "unobtainium" = none) ∧
    (gen_icon top_registry "top" "unobtainium"
        = (none, ["top icon generator not found for " ++ "unobtainium"]) ∧
     (gen_icon top_registry "top" "unobtainium").2.length = 1 ∧
     gen_icon top_registry "top" "" = (none, []) ∧
     (∀ (side : Registry) (r : Row), py_lower r.top_symbol = "unobtainium" →
       py_lower r.side_symbol = "" →
       process_row top_registry side r
         = ⟨none, none, ["top icon generator not found for " ++ "unobtainium"]⟩) ∧
     ∀ (regs : Registry × Registry) (r : Row) (rs : List Row),
       (process_rows regs (r :: rs)).2
         = process_row regs.1 regs.2 r :: (process_rows regs rs).2) :=
  ⟨⟨by decide, by rfl⟩,
    missing_symbol_spec top_registry "unobtainium" (by decide) (by rfl)⟩

/-- Helper: the last element of a cons-append-singleton list. -/
theorem getLast?_cons_append_singleton {α : Type} (a : α) (l : List α) (b : α) :
    (a :: l ++ [b]).getLast? = some b := by
  rw [show a :: l ++ [b] = (a :: l) ++ [b] from rfl, List.getLast?_concat]

/-- C7: for every shaft width and length, `bolt_shaft` draws exactly six
white threading lines, evenly spaced (consecutive `y1` attributes differ by a
seventh of the drawn shaft-rectangle height), each one diagonal from the left
edge to the right edge of the shaft and rising by a quarter width; the final
element is a closed black path with three points (pointed triangular tip)
when `pointed` is set and four points (trapezoidal chamfer) otherwise. -/
theorem bolt_shaft_spec (w l : ℝ) (p : Bool) :
    ((bolt_shaft w l p).filter is_thread_line).length = 6 ∧
    (∀ i : ℕ, i < 5 →
      elem_y1 (((bolt_shaft w l p).filter is_thread_line).getD (i + 1) (Elem.rect 0 0 0 0 "")) -
        elem_y1 (((bolt_shaft w l p).filter is_thread_line).getD i (Elem.rect 0 0 0 0 "")) =
        (l - (if p then w else w / 4)) / 7) ∧
    (∀ e ∈ (bolt_shaft w l p).filter is_thread_line, ∃ y : ℝ,
      e = Elem.line ((100 - w) / 2) y ((100 + w) / 2) (y - w / 4) "#FFFFFF" 2) ∧
    (∃ pts : List (ℝ × ℝ),
      (bolt_shaft w l p).getLast? = some (.path ⟨pts, true⟩ "#000000") ∧
      pts.length = if p then 3 else 4) := by
  cases p with
  | false =>
    have hfilter : ((bolt_shaft w l false).filter is_thread_line) =
        (List.range 6).map (fun (i : ℕ) => Elem.line ((100 - w) / 2)
          ((100 - l) + ((i : ℝ) + 1) * ((l - w / 4) / 7)) ((100 + w) / 2)
          (((100 - l) + ((i : ℝ) + 1) * ((l - w / 4) / 7)) - w / 4) "#FFFFFF" 2) := by
      simp [bolt_shaft, is_thread_line, List.range_succ]
    refine ⟨by rw [hfilter]; simp, ?_, ?_, ?_⟩
    · intro i hi
      rw [hfilter, getD_range_map 6 (i + 1) _ _ (by omega), getD_range_map 6 i _ _ (by omega)]
      simp [elem_y1]
      ring
    · intro e he
      rw [hfilter] at he
      simp only [List.mem_map, List.mem_range] at he
      obtain ⟨i, _, rfl⟩ := he
      exact ⟨_, rfl⟩
    · exact ⟨[((100 - w) / 2, 100 - l + (l - w / 4)),
              ((100 - w) / 2 + w, 100 - l + (l - w / 4)),
              ((100 - w) / 2 + w - w / 4 / 2, 100 - l + (l - w / 4) + w / 4),
              ((100 - w) / 2 + w / 4 / 2, 100 - l + (l - w / 4) + w / 4)],
            getLast?_cons_append_singleton _ _ _, rfl⟩
  | true =>
    have hfilter : ((bolt_shaft w l true).filter is_thread_line) =
        (List.range 6).map (fun (i : ℕ) => Elem.line ((100 - w) / 2)
          ((100 - l) + ((i : ℝ) + 1) * ((l - w) / 7)) ((100 + w) / 2)
          (((100 - l) + ((i : ℝ) + 1) * ((l - w) / 7)) - w / 4) "#FFFFFF" 2) := by
      simp [bolt_shaft, is_thread_line, List.range_succ]
    refine ⟨by rw [hfilter]; simp, ?_, ?_, ?_⟩
    · intro i hi
      rw [hfilter, getD_range_map 6 (i + 1) _ _ (by omega), getD_range_map 6 i _ _ (by omega)]
      simp [elem_y1]
      ring
    · intro e he
      rw [hfilter] at he
      simp only [List.mem_map, List.mem_range] at he
      obtain ⟨i, _, rfl⟩ := he
      exact ⟨_, rfl⟩
    · exact ⟨[((100 - w) / 2, 100 - l + (l - w)), (50, 100),
              ((100 - w) / 2 + w, 100 - l + (l - w))],
            getLast?_cons_append_singleton _ _ _, rfl⟩

/-- Witness for C7 at the default cap-screw shaft `bolt_shaft(25, 80)`. -/
theorem bolt_shaft_spec_witness :
    ((bolt_shaft 25 80 false).filter is_thread_line).length = 6 ∧
    (∀ i : ℕ, i < 5 →
      elem_y1 (((bolt_shaft 25 80 false).filter is_thread_line).getD (i + 1)
          (Elem.rect 0 0 0 0 "")) -
        elem_y1 (((bolt_shaft 25 80 false).filter is_thread_line).getD i
          (Elem.rect 0 0 0 0 "")) =
        (80 - (if false then 25 else 25 / 4)) / 7) ∧
    (∀ e ∈ (bolt_shaft 25 80 false).filter is_thread_line, ∃ y : ℝ,
      e = Elem.line ((100 - 25) / 2) y ((100 + 25) / 2) (y - 25 / 4) "#FFFFFF" 2) ∧
    (∃ pts : List (ℝ × ℝ),
      (bolt_shaft 25 80 false).getLast? = some (.path ⟨pts, true⟩ "#000000") ∧
      pts.length = if false then 3 else 4) :=
  bolt_shaft_spec 25 80 false

/-- C9: `sanitize_svg` maps the empty string to the empty string, and every
successful (non-`ValueError`) result is either empty or starts with `<` and
ends with `>`; a non-empty result violating the bracket condition is never
returned. -/
theorem sanitize_svg_spec :
    sanitize_svg "" = .ok "" ∧
    ∀ s t : String, sanitize_svg s = .ok t →
      t = "" ∨ (t.data.head? = some '<' ∧ t.data.getLast? = some '>') := by
  refine ⟨rfl, ?_⟩
  intro s t h
  rw [sanitize_svg] at h
  by_cases hs : s = ""
  · rw [if_pos hs] at h
    injection h with h1
    exact Or.inl h1.symm
  · rw [if_neg hs] at h
    by_cases hg : sanitize_core s ≠ [] ∧
        ¬((sanitize_core s).head? = some '<' ∧ (sanitize_core s).getLast? = some '>')
    · rw [if_pos hg] at h
      exact Except.noConfusion h
    · rw [if_neg hg] at h
      injection h with h1
      push_neg at hg
      by_cases he : sanitize_core s = []
      · left
        rw [← h1, he]
      · right
        have hb := hg he
        have h2 : t.data = sanitize_core s := by
          rw [← h1]
        rw [h2]
        exact hb

/-- Witness for C9: the fragment `<a/>` is already clean and passes through
successfully, and the resulting string satisfies the bracket condition. -/
theorem sanitize_svg_spec_witness :
    (sanitize_svg "<a/>" = .ok "<a/>") ∧
    (("<a/>" : String) = "" ∨
      (("<a/>" : String).data.head? = some '<' ∧
       ("<a/>" : String).data.getLast? = some '>')) :=
  ⟨by rfl, sanitize_svg_spec.2 "<a/>" "<a/>" (by rfl)⟩

end GfLabel
